import Mathlib

/-!
Verification of the Email-agent repository (a Django backend `Main.py` wrapping a
Gmail client plus a Streamlit chat front-end `Streamlit_app.py`) against its
natural-language specification.

The Python code is shallowly embedded: Python strings are Lean `String`s, and the
Python string operations used by the repository (`in`, `split`, `strip`, `lower`,
slicing, `int(...)`) are reimplemented as structural recursions over `List Char`
so that every definition is executable and kernel-reducible.  The model covers
ASCII text (Python `str.lower`/`str.strip`/`int` are Unicode-aware, but every
string constant in the repository is ASCII).  External collaborators (the Gmail
client library, the OpenAI completion API, the `requests` HTTP layer) are
modelled as explicit function parameters returning `Except String _`, an
exception being the `.error` case; each handler records the calls it makes to a
collaborator so that claims about "exactly one call" or "never called" are
statable.
-/

/-! ## Python string primitives -/

/-- Characters stripped by Python `str.strip()` (ASCII fragment). -/
def pySpaceChar (c : Char) : Bool :=
  c == ' ' || c == '\t' || c == '\n' || c == '\r' || c == '\x0b' || c == '\x0c'

/-- Python `s.strip()`: drop leading and trailing whitespace. -/
def pyStrip (s : String) : String :=
  String.mk (((s.data.dropWhile pySpaceChar).reverse.dropWhile pySpaceChar).reverse)

/-- Python `s.lower()` (ASCII fragment): lower-case every character. -/
def pyLower (s : String) : String :=
  String.mk (s.data.map Char.toLower)

/-- Python `s[:n]`: the first `n` characters of `s`. -/
def pyTake (n : Nat) (s : String) : String :=
  String.mk (s.data.take n)

/-- Whether `sep` occurs at the head of `s` (character lists). -/
def leadsWith : List Char → List Char → Bool
  | [], _ => true
  | _ :: _, [] => false
  | a :: as, b :: bs => a == b && leadsWith as bs

/-- Whether `sep` occurs as a contiguous run somewhere in `s` (character lists). -/
def hasSub (sep : List Char) : List Char → Bool
  | [] => sep.isEmpty
  | c :: rest => leadsWith sep (c :: rest) || hasSub sep rest

/-- Python `needle in haystack` for strings. -/
def pyIn (needle haystack : String) : Bool :=
  hasSub needle.data haystack.data

/-- Fuelled core of Python `str.split(sep)` for a non-empty `sep`: splits on each
leftmost non-overlapping occurrence of `sep`.  The fuel only serves structural
termination; `s.length + 1` steps always suffice since every step consumes at
least one character. -/
def pySplitCore (sep : List Char) : Nat → List Char → List (List Char)
  | _, [] => [[]]
  | 0, s => [s]
  | fuel + 1, c :: rest =>
    if leadsWith sep (c :: rest) then
      [] :: pySplitCore sep fuel (List.drop sep.length (c :: rest))
    else
      match pySplitCore sep fuel rest with
      | [] => [[c]]
      | seg :: segs => (c :: seg) :: segs

/-- Python `s.split(sep)`.  Python raises `ValueError` on an empty separator;
every separator in the repository is a non-empty literal, so the empty case
(returning `[s]`) is unreachable at the call sites modelled here. -/
def pySplit (s sep : String) : List String :=
  if sep.data = [] then [s]
  else (pySplitCore sep.data (s.data.length + 1) s.data).map (fun l => String.mk l)

/-- The characters following the first occurrence of `sep` in `s`, when `sep`
occurs at all (character lists). -/
def afterSubL (sep : List Char) : List Char → Option (List Char)
  | [] => none
  | c :: rest =>
    if leadsWith sep (c :: rest) then some (List.drop sep.length (c :: rest))
    else afterSubL sep rest

/-- Everything after the first occurrence of `sep` in `s`, when `sep` occurs. -/
def afterFirst (s sep : String) : Option String :=
  (afterSubL sep.data s.data).map (fun l => String.mk l)

/-- Digit-run parser for Python `int(str)`: consumes digits with single
underscores allowed between digits (CPython underscore rule). -/
def pyIntCore (acc : Nat) : List Char → Option Nat
  | [] => some acc
  | '_' :: c :: rest =>
    if c.isDigit then pyIntCore (acc * 10 + (c.toNat - 48)) rest else none
  | c :: rest =>
    if c.isDigit then pyIntCore (acc * 10 + (c.toNat - 48)) rest else none

/-- Start of the digit run for Python `int(str)`: the first character must be a
digit. -/
def pyIntStart : List Char → Option Nat
  | [] => none
  | c :: rest => if c.isDigit then pyIntCore (c.toNat - 48) rest else none

/-- Python `int(s)` on a string (ASCII fragment): optional surrounding
whitespace, optional sign, then a digit run; `none` models `ValueError`. -/
def pyInt (s : String) : Option Int :=
  match (pyStrip s).data with
  | '+' :: rest => (pyIntStart rest).map Int.ofNat
  | '-' :: rest => (pyIntStart rest).map (fun n => -(Int.ofNat n))
  | rest => (pyIntStart rest).map Int.ofNat

/-! ## Chat-side intent dispatch and send-parameter extraction
(src/Streamlit_app.py, module-level chat-input block, lines 91-141) -/

/-- The four intents of the chat dispatcher. -/
inductive Intent where
  | LIST_EMAILS
  | SUMMARIZE
  | SEND_EMAIL
  | UNKNOWN
deriving DecidableEq

/-- The elif-chain of the chat-input block (lines 94-141): `p = prompt.lower().strip()`,
then substring checks in a fixed priority order. -/
def classifyIntent (prompt : String) : Intent :=
  let p := pyStrip (pyLower prompt)
  if pyIn "list" p && pyIn "email" p then .LIST_EMAILS
  else if pyIn "summarize" p then .SUMMARIZE
  else if pyIn "send an email to" p then .SEND_EMAIL
  else .UNKNOWN

/-- The placeholder pair produced by the bare `except` of the extractor (line 124). -/
def sendFallback : String × String := ("unknown@example.com", "Hello!")

/-- Shared tail of the extractor: `X.split("saying")`, recipient = `parts[0].strip()`,
body = `parts[1].strip() if len(parts) > 1 else "Hello!"` (lines 120-122). -/
def saidSplit (after : String) : String × String :=
  match pySplit (pyStrip after) "saying" with
  | r :: b :: _ => (pyStrip r, pyStrip b)
  | [r] => (pyStrip r, "Hello!")
  | [] => sendFallback

/-- The send-parameter extractor (lines 119-124): `prompt.split("send an email to")[1]`
(the `IndexError` of a missing second segment is caught by the bare `except`,
yielding the placeholders), then `saidSplit` on that segment. -/
def extractSend (prompt : String) : String × String :=
  match pySplit prompt "send an email to" with
  | _ :: seg :: _ => saidSplit seg
  | _ => sendFallback

/-- Line 125: `subject = body[:30] or "No subject"`. -/
def sendSubject (body : String) : String :=
  if pyTake 30 body == "" then "No subject" else pyTake 30 body

/-- The full (recipient, body, subject) triple computed by lines 119-125. -/
def sendParams (prompt : String) : String × String × String :=
  let p := extractSend prompt
  (p.1, p.2, sendSubject p.2)

/-- Modelled from the spec (section 4.2) for comparison with `extractSend`: "split the
text on the literal phrase; take everything after it; split that on the literal
phrase `saying`" — "everything after it" is the whole suffix following the first
occurrence of the phrase. -/
def extractSendSpec (prompt : String) : String × String :=
  match afterFirst prompt "send an email to" with
  | some after => saidSplit after
  | none => sendFallback

/-! ## JSON-ish values and Python dict operations

The Gmail client and the handlers exchange loosely-typed JSON objects.  The
claims under verification only ever inspect scalar field values, so values are
modelled by the flat type `JVal` and objects by association lists in insertion
order (Python dicts preserve insertion order and have unique keys). -/

/-- A scalar JSON value (Python `None`, `bool`, `str`, `int`). -/
inductive JVal where
  | null
  | bool (b : Bool)
  | str (s : String)
  | num (n : Int)
deriving DecidableEq

/-- A Python dict with scalar values, in insertion order. -/
abbrev PyDict : Type := List (String × JVal)

/-- Python `d.get(k)` / `k in d`: the value at the first (unique) occurrence of `k`. -/
def dget (d : PyDict) (k : String) : Option JVal :=
  match d with
  | [] => none
  | (k', v) :: rest => if k' == k then some v else dget rest k

/-- Python `d.get(k, dflt)`. -/
def pyGetD (d : PyDict) (k : String) (dflt : JVal) : JVal :=
  (dget d k).getD dflt

/-- Python truthiness of a scalar value. -/
def jtruthy : JVal → Bool
  | .null => false
  | .bool b => b
  | .str s => !(s == "")
  | .num n => !(n == 0)

/-- Python `a or b` where `a` is a possibly-missing dict entry and `b` an
arbitrary further operand: the first operand when truthy, otherwise `b`. -/
def pyOrO (a b : Option JVal) : Option JVal :=
  match a with
  | some v => if jtruthy v then some v else b
  | none => b

/-- Python `a or b` where the final operand `b` is a present value. -/
def pyOrV (a : Option JVal) (b : JVal) : JVal :=
  match a with
  | some v => if jtruthy v then v else b
  | none => b

/-- JSON serialization of a possibly-missing Python value (`None` becomes `null`). -/
def toJ (o : Option JVal) : JVal :=
  o.getD .null

/-- Python `str(v)` of a scalar value, as used in f-string interpolation. -/
def pyStr : JVal → String
  | .null => "None"
  | .bool true => "True"
  | .bool false => "False"
  | .str s => s
  | .num n => toString n

/-- Python `v[:n]` on a scalar: slicing is only defined on strings; on any other
scalar it raises `TypeError`. -/
def pySliceStr (v : JVal) (n : Nat) : Except String JVal :=
  match v with
  | .str s => .ok (.str (pyTake n s))
  | _ => .error "TypeError: value is not subscriptable"

/-- An HTTP response: a DRF `Response(body, status=...)` (status defaults to 200). -/
structure Resp (β : Type) where
  status : Nat
  body : β
deriving DecidableEq

/-! ## Backend: send handler (src/Main.py, `send_view`, lines 60-89) -/

/-- A send request body `{to, subject, body}`. -/
structure SendReq where
  «to» : String
  subject : String
  body : String
deriving DecidableEq

/-- Modelled from the spec: `SendEmailSerializer` lives in `serializers.py`, which
is not part of the repository snapshot; spec sections 3 and 4.3 say send
"validates (to, subject, body) as non-empty strings", all required. -/
def sendReqValid (r : SendReq) : Bool :=
  !(r.«to» == "") && !(r.subject == "") && !(r.body == "")

/-- Modelled from the spec: the field-level error dict `serializer.errors`
returned with status 400 when validation fails. -/
def sendReqErrors : PyDict :=
  [("errors", .str "field-level validation messages")]

/-- The result of the external `send_message` delegate: a Python dict or any
other value (`isinstance(sent_result, dict)` distinguishes the two). -/
inductive SendResult where
  | dict (items : PyDict)
  | other (v : JVal)
deriving DecidableEq

/-- The `send_view` handler (lines 60-89).  The delegate outcome is passed in
(`.error e` models `send_message` raising, `str(e) = e`); the second component
counts the delegate calls issued.  On success the response dict is built as
`result = {"ok": True}`, then `result["message_id"] = sent_result["id"]` when
`"id"` is present, then `result.update({k: v for k, v in sent_result.items()
if k not in result})`. -/
def send_view (r : SendReq) (delegate : Except String SendResult) :
    Resp PyDict × Nat :=
  if sendReqValid r then
    match delegate with
    | .error e => (⟨500, [("error", .str e)]⟩, 1)
    | .ok (.dict items) =>
      let base : PyDict := [("ok", .bool true)]
      let withId : PyDict :=
        match dget items "id" with
        | some v => base ++ [("message_id", v)]
        | none => base
      (⟨200, withId ++ items.filter (fun kv => (dget withId kv.1).isNone)⟩, 1)
    | .ok (.other v) => (⟨200, [("ok", .bool true), ("result", v)]⟩, 1)
  else
    (⟨400, sendReqErrors⟩, 0)

/-! ## Backend: list handler (src/Main.py, `list_view`, lines 95-141) -/

/-- Line 116: `limit = int(request.GET.get("limit", 10))`, with `limit = 10` on
any parse failure (lines 115-118). -/
def listLimit (limitParam : Option String) : Int :=
  match limitParam with
  | none => 10
  | some s => (pyInt s).getD 10

/-- The simplification of one raw message (lines 124-137): first-truthy `or`
fallbacks for "from", "subject" and "time", and `(m.get("body") or "")[:2000]`
(slicing a truthy non-string body raises, which the handler turns into a 500). -/
def simplifyMsg (m : PyDict) : Except String PyDict :=
  match pySliceStr (pyOrV (dget m "body") (.str "")) 2000 with
  | .error e => .error e
  | .ok body =>
    .ok [("id", toJ (dget m "id")),
        ("threadId", toJ (dget m "threadId")),
        ("from", toJ (pyOrO (dget m "from") (pyOrO (dget m "sender") (dget m "emailFrom")))),
        ("to", toJ (dget m "to")),
        ("subject", toJ (pyOrO (dget m "subject") (pyOrO (dget m "title") (dget m "header_subject")))),
        ("snippet", toJ (dget m "snippet")),
        ("time", toJ (pyOrO (dget m "time") (pyOrO (dget m "date") (dget m "internalDate")))),
        ("body", body)]

/-- Body of a `list_view` response: a JSON array of simplified messages on
success, an error dict on failure. -/
inductive ListBody where
  | items (l : List PyDict)
  | err (d : PyDict)
deriving DecidableEq

/-- The `list_view` handler (lines 95-141): parse `q` and `limit`, call
`list_messages(query=q, max_results=limit)` once, simplify each message; any
exception becomes a 500 `{error}` response. -/
def list_view (qParam limitParam : Option String)
    (listDelegate : Option String → Int → Except String (List PyDict)) :
    Resp ListBody :=
  match listDelegate qParam (listLimit limitParam) with
  | .error e => ⟨500, .err [("error", .str e)]⟩
  | .ok msgs =>
    match msgs.mapM simplifyMsg with
    | .error e => ⟨500, .err [("error", .str e)]⟩
    | .ok simplified => ⟨200, .items simplified⟩

/-- Modelled from the spec for comparison with `simplifyMsg`: "first-non-null
fallback across alternate field names" — the first candidate field that is
present with a non-null value. -/
def firstNonNull : List (Option JVal) → Option JVal
  | [] => none
  | some v :: rest => if v = JVal.null then firstNonNull rest else some v
  | none :: rest => firstNonNull rest

/-- Python truthiness of a possibly-missing dict entry (absent counts falsy). -/
def optTruthy (o : Option JVal) : Bool :=
  match o with
  | some v => jtruthy v
  | none => false

/-- Whether a spam action value is outside `{mark_spam, unspam, unmark_spam}`
(a missing action counts as outside the set). -/
def unknownSpamAction : Option String → Bool
  | none => true
  | some a => !(a == "mark_spam" || a == "unspam" || a == "unmark_spam")

instance {ε α : Type} [DecidableEq ε] [DecidableEq α] : DecidableEq (Except ε α) := fun x y =>
  match x, y with
  | .ok a, .ok b =>
    if h : a = b then isTrue (by rw [h]) else isFalse (fun hc => by cases hc; exact h rfl)
  | .error a, .error b =>
    if h : a = b then isTrue (by rw [h]) else isFalse (fun hc => by cases hc; exact h rfl)
  | .ok _, .error _ => isFalse (fun hc => by cases hc)
  | .error _, .ok _ => isFalse (fun hc => by cases hc)

/-! ## Backend: summary handler (src/Main.py, `summary_view`, lines 147-196) -/

/-- Lines 153-156: `limit = int(request.GET.get("limit", 5))`, default 5 on
any parse failure. -/
def summaryLimit (limitParam : Option String) : Int :=
  match limitParam with
  | none => 5
  | some s => (pyInt s).getD 5

/-- Line 160: the snippet of one message, `m.get("body") or m.get("snippet") or ""`. -/
def snippetOf (m : PyDict) : JVal :=
  pyOrV (dget m "body") (pyOrV (dget m "snippet") (.str ""))

/-- Truthiness of `getattr(settings, "OPENAI_API_KEY", None)`: configured means
present and non-empty (line 162). -/
def keyConfigured (apiKey : Option String) : Bool :=
  match apiKey with
  | none => false
  | some s => !(s == "")

/-- The enumerated part of the prompt (lines 169-170): `"Email {i}:\n{s}\n\n"`
for each snippet, numbering from `i`. -/
def promptEntries (i : Nat) : List JVal → String
  | [] => ""
  | s :: rest => "Email " ++ toString i ++ ":\n" ++ pyStr s ++ "\n\n" ++ promptEntries (i + 1) rest

/-- The full summarization prompt (lines 167-170). -/
def buildPrompt (snippets : List JVal) : String :=
  "You are an assistant who summarizes a user\x27s recent emails. " ++
  "Summarize the main topics briefly and list any clear action items.\n\n" ++
  promptEntries 1 snippets

/-- Model of the completion response object, observed through exactly the two
accesses lines 185-190 make of it: `content` is
`resp["choices"][0]["message"]["content"]` when that path exists, and `asStr`
models `str(resp)` (the fallback when it does not).  The response object itself
belongs to the external OpenAI client library. -/
structure ChatResp where
  content : Option String
  asStr : String
deriving DecidableEq

/-- Body of a `summary_view` response: `{"snippets": ..., "summary": ...}` with
an optional `"warning"` on success, an error dict on failure. -/
inductive SummaryBody where
  | ok (snippets : List JVal) (summary : Option String) (warning : Option String)
  | err (d : PyDict)
deriving DecidableEq

/-- The `summary_view` handler (lines 147-196).  `listDelegate` models
`list_messages(max_results=limit)`; `completionDelegate` models
`openai.ChatCompletion.create` applied to the built prompt (its fixed `model`,
`max_tokens=400` and `temperature=0.25` arguments are constants of the external
call).  The second component counts completion-API calls.  When no OpenAI key
is configured the handler returns the snippets, a null summary and a warning
(lines 162-164) without calling the completion API. -/
def summary_view (apiKey : Option String) (limitParam : Option String)
    (listDelegate : Int → Except String (List PyDict))
    (completionDelegate : String → Except String ChatResp) :
    Resp SummaryBody × Nat :=
  match listDelegate (summaryLimit limitParam) with
  | .error e => (⟨500, .err [("error", .str e)]⟩, 0)
  | .ok msgs =>
    let snippets := msgs.map snippetOf
    if keyConfigured apiKey then
      match completionDelegate (buildPrompt snippets) with
      | .error e => (⟨500, .err [("error", .str e)]⟩, 1)
      | .ok resp =>
        let summaryText :=
          match resp.content with
          | some s => pyStrip s
          | none => resp.asStr
        (⟨200, .ok snippets (some summaryText) none⟩, 1)
    else
      (⟨200, .ok snippets none (some "OPENAI_API_KEY not set in settings.")⟩, 0)

/-! ## Backend: spam handler (src/Main.py, `manage_spam`, lines 202-224) -/

/-- One call to the external `modify_message_labels(message_id, add_labels=...,
remove_labels=...)` delegate (absent keyword arguments modelled as `[]`). -/
structure ModifyCall where
  msgId : String
  addLabels : List String
  removeLabels : List String
deriving DecidableEq

/-- The `manage_spam` handler (lines 202-224): requires truthy `message_id` and
`action`; `mark_spam` adds the fixed label "SPAM", `unspam`/`unmark_spam`
removes it, any other action is a 400 with no delegate call.  The delegate
outcome is passed in; the second component lists the delegate calls issued. -/
def manage_spam (messageId action : Option String)
    (delegate : Except String JVal) : Resp PyDict × List ModifyCall :=
  match messageId, action with
  | some mid, some a =>
    if mid == "" || a == "" then
      (⟨400, [("error", .str "message_id and action required")]⟩, [])
    else if a == "mark_spam" then
      match delegate with
      | .ok res => (⟨200, [("ok", .bool true), ("result", res)]⟩, [⟨mid, ["SPAM"], []⟩])
      | .error e => (⟨500, [("error", .str e)]⟩, [⟨mid, ["SPAM"], []⟩])
    else if a == "unspam" || a == "unmark_spam" then
      match delegate with
      | .ok res => (⟨200, [("ok", .bool true), ("result", res)]⟩, [⟨mid, [], ["SPAM"]⟩])
      | .error e => (⟨500, [("error", .str e)]⟩, [⟨mid, [], ["SPAM"]⟩])
    else
      (⟨400, [("error", .str "unknown action")]⟩, [])
  | _, _ =>
    (⟨400, [("error", .str "message_id and action required")]⟩, [])

/-! ## Chat client: API helpers and list formatter
(src/Streamlit_app.py, lines 36-59 and 96-107) -/

/-- Timeout literal of `list_emails` (line 38): `timeout=10`. -/
def listTimeout : Nat := 10

/-- Timeout literal of `summarize_emails` (line 46): `timeout=10`. -/
def summarizeTimeout : Nat := 10

/-- Timeout literal of `send_email` (line 55): `timeout=15`. -/
def sendTimeout : Nat := 15

/-- Result of a chat-side API helper: the decoded JSON on success, or the
`{"error": str(e)}` dict the bare `except` builds from any exception
(`requests` timeouts included). -/
inductive ChatResult (α : Type) where
  | ok (v : α)
  | err (e : String)
deriving DecidableEq

/-- The `list_emails` helper (lines 36-42): one GET with `timeout=10`; any
exception becomes `{"error": str(e)}`.  `get` models the round trip
(`requests.get` + `raise_for_status` + `.json()`) as a function of the timeout. -/
def list_emails (get : Nat → Except String (List PyDict)) : ChatResult (List PyDict) :=
  match get listTimeout with
  | .ok v => .ok v
  | .error e => .err e

/-- The `summarize_emails` helper (lines 44-50): one GET with `timeout=10`. -/
def summarize_emails (get : Nat → Except String PyDict) : ChatResult PyDict :=
  match get summarizeTimeout with
  | .ok v => .ok v
  | .error e => .err e

/-- The `send_email` helper (lines 52-59): one POST with `timeout=15`. -/
def send_email (post : Nat → Except String PyDict) : ChatResult PyDict :=
  match post sendTimeout with
  | .ok v => .ok v
  | .error e => .err e

/-- Tail of one formatted list entry (lines 104-107), after the entry number:
subject (default "(No subject)"), From, Time and Body lines.  `fmtTime` models
`format_time` (lines 61-77), whose RFC-822/epoch date parsing delegates to the
external `email.utils` and `datetime` libraries. -/
def formatEntryTail (fmtTime : Option JVal → String) (e : PyDict) : String :=
  pyStr (pyGetD e "subject" (.str "(No subject)")) ++ "**\n" ++
  "- From: " ++ pyStr (toJ (dget e "from")) ++ "\n" ++
  "- Time: " ++ fmtTime (dget e "time") ++ "\n" ++
  "- Body: " ++ pyStr (toJ (dget e "body")) ++ "\n\n"

/-- One formatted list entry (lines 104-107): `**{i}. {subject}**` then the
detail lines. -/
def formatEntry (fmtTime : Option JVal → String) (i : Nat) (e : PyDict) : String :=
  "**" ++ toString i ++ ". " ++ formatEntryTail fmtTime e

/-- The loop `for i, e in enumerate(data, 1)` (lines 103-107), numbering from `i`. -/
def formatEntriesFrom (fmtTime : Option JVal → String) (i : Nat) :
    List PyDict → List String
  | [] => []
  | e :: rest => formatEntry fmtTime i e :: formatEntriesFrom fmtTime (i + 1) rest

/-- The full list reply (lines 102-107): header plus the numbered entries. -/
def listReply (fmtTime : Option JVal → String) (data : List PyDict) : String :=
  "📩 **Latest Emails:**\n\n" ++ String.join (formatEntriesFrom fmtTime 1 data)

/-! ## Helper lemmas on the string primitives -/

lemma hasSub_nil_left (l : List Char) : hasSub [] l = true := by
  cases l <;> simp [hasSub, leadsWith, List.isEmpty]

lemma pySplitCore_ne_nil (sep : List Char) :
    ∀ fuel l, pySplitCore sep fuel l ≠ [] := by
  intro fuel
  induction fuel with
  | zero => intro l; cases l <;> simp [pySplitCore]
  | succ n ih =>
    intro l
    cases l with
    | nil => simp [pySplitCore]
    | cons c rest =>
      by_cases h : leadsWith sep (c :: rest) = true
      · simp [pySplitCore, h]
      · simp only [pySplitCore, Bool.not_eq_true] at h ⊢
        rw [h]
        cases hc : pySplitCore sep n rest <;> simp

lemma pySplitCore_single (sep : List Char) :
    ∀ fuel l x, pySplitCore sep fuel l = [x] → x = l := by
  intro fuel
  induction fuel with
  | zero =>
    intro l x h
    cases l with
    | nil => simpa [pySplitCore] using h.symm
    | cons c rest => simpa [pySplitCore] using h.symm
  | succ n ih =>
    intro l x h
    cases l with
    | nil => simpa [pySplitCore] using h.symm
    | cons c rest =>
      by_cases hl : leadsWith sep (c :: rest) = true
      · simp [pySplitCore, hl] at h
        exact absurd h.2 (pySplitCore_ne_nil sep n _)
      · simp only [pySplitCore, Bool.not_eq_true] at hl h
        rw [hl] at h
        cases hsquare : pySplitCore sep n rest with
        | nil => exact absurd hsquare (pySplitCore_ne_nil sep n rest)
        | cons seg segs =>
          rw [hsquare] at h
          simp at h
          rcases h with ⟨hx, hsegs⟩
          subst hsegs
          have := ih rest seg hsquare
          subst this
          exact hx.symm

lemma pySplitCore_of_not_hasSub (sep : List Char) :
    ∀ fuel l, hasSub sep l = false → pySplitCore sep fuel l = [l] := by
  intro fuel
  induction fuel with
  | zero => intro l h; cases l <;> simp [pySplitCore]
  | succ n ih =>
    intro l h
    cases l with
    | nil => simp [pySplitCore]
    | cons c rest =>
      simp only [hasSub, Bool.or_eq_false_iff] at h
      simp only [pySplitCore, h.1]
      rw [if_neg (by simp [h.1])]
      rw [ih rest h.2]

lemma pySplit_of_not_pyIn {s sep : String} (h : pyIn sep s = false) :
    pySplit s sep = [s] := by
  unfold pySplit
  have hne : ¬(sep.data = []) := by
    intro hnil
    rw [pyIn, hnil, hasSub_nil_left] at h
    cases h
  rw [pyIn] at h
  rw [if_neg hne, pySplitCore_of_not_hasSub sep.data _ _ h]
  simp

lemma pySplitCore_pair (sep : List Char) :
    ∀ fuel l a b, pySplitCore sep fuel l = [a, b] → afterSubL sep l = some b := by
  intro fuel
  induction fuel with
  | zero =>
    intro l a b h
    cases l with
    | nil => simp [pySplitCore] at h
    | cons c rest => simp [pySplitCore] at h
  | succ n ih =>
    intro l a b h
    cases l with
    | nil => simp [pySplitCore] at h
    | cons c rest =>
      by_cases hl : leadsWith sep (c :: rest) = true
      · simp only [pySplitCore, if_pos hl, List.cons.injEq] at h
        have hb : b = List.drop sep.length (c :: rest) :=
          pySplitCore_single sep n _ b (by simpa using h.2)
        simp only [afterSubL, if_pos hl]
        rw [hb]
      · simp only [pySplitCore, if_neg hl] at h
        simp only [afterSubL, if_neg hl]
        cases hc : pySplitCore sep n rest with
        | nil => exact absurd hc (pySplitCore_ne_nil sep n rest)
        | cons seg segs =>
          rw [hc] at h
          simp only [List.cons.injEq] at h
          have hpair : pySplitCore sep n rest = [seg, b] := by
            rw [hc, h.2]
          exact ih rest seg b hpair

/-! ## Claim theorems: chat-side classifier and extractor -/

/-- C1: for every user utterance, the classifier applied to the lower-cased,
stripped text resolves by the fixed priority order — LIST_EMAILS when both
"list" and "email" are substrings, else SUMMARIZE when "summarize" is a
substring, else SEND_EMAIL when "send an email to" is a substring, else
UNKNOWN — and in particular an utterance whose normalized text contains
"list", "email" and "summarize" resolves to LIST_EMAILS. -/
theorem C1_intent_priority (prompt : String) :
    ((pyIn "list" (pyStrip (pyLower prompt)) && pyIn "email" (pyStrip (pyLower prompt))) = true →
      classifyIntent prompt = .LIST_EMAILS)
    ∧ ((pyIn "list" (pyStrip (pyLower prompt)) && pyIn "email" (pyStrip (pyLower prompt))) = false →
        pyIn "summarize" (pyStrip (pyLower prompt)) = true →
        classifyIntent prompt = .SUMMARIZE)
    ∧ ((pyIn "list" (pyStrip (pyLower prompt)) && pyIn "email" (pyStrip (pyLower prompt))) = false →
        pyIn "summarize" (pyStrip (pyLower prompt)) = false →
        pyIn "send an email to" (pyStrip (pyLower prompt)) = true →
        classifyIntent prompt = .SEND_EMAIL)
    ∧ ((pyIn "list" (pyStrip (pyLower prompt)) && pyIn "email" (pyStrip (pyLower prompt))) = false →
        pyIn "summarize" (pyStrip (pyLower prompt)) = false →
        pyIn "send an email to" (pyStrip (pyLower prompt)) = false →
        classifyIntent prompt = .UNKNOWN)
    ∧ (pyIn "list" (pyStrip (pyLower prompt)) = true →
        pyIn "email" (pyStrip (pyLower prompt)) = true →
        pyIn "summarize" (pyStrip (pyLower prompt)) = true →
        classifyIntent prompt = .LIST_EMAILS) := by
  refine ⟨?_, ?_, ?_, ?_, ?_⟩ <;> intros <;> simp_all [classifyIntent]

/-- Witness for C1 at a concrete utterance containing "list", "email" and
"summarize". -/
theorem C1_intent_priority_witness :
    classifyIntent "please list and summarize my email inbox" = .LIST_EMAILS :=
  (C1_intent_priority "please list and summarize my email inbox").2.2.2.2
    (by decide) (by decide) (by decide)

/-- C2 counterexample: when the phrase "send an email to" occurs twice, the code
takes the segment between its first and second occurrences
(`prompt.split(...)[1]`), not "everything after it" as the algorithm stated in the claim
states, so the two disagree on this SEND_EMAIL utterance. -/
theorem C2_extractor_counterexample :
    extractSend "send an email to a@b.com send an email to saying x"
      = ("a@b.com", "Hello!")
    ∧ extractSendSpec "send an email to a@b.com send an email to saying x"
      = ("a@b.com send an email to", "x")
    ∧ extractSend "send an email to a@b.com send an email to saying x"
      ≠ extractSendSpec "send an email to a@b.com send an email to saying x"
    ∧ classifyIntent "send an email to a@b.com send an email to saying x"
      = .SEND_EMAIL := by
  refine ⟨by decide, by decide, by decide, by decide⟩

/-- C2 amended: the extractor uses the segment of `split("send an email to")`
between the first and second occurrences of the phrase — which coincides with
"everything after it" whenever the phrase occurs exactly once (a two-element
split) — then splits that segment (stripped) on "saying", the first trimmed
part being the recipient and the second the body (defaulting to "Hello!");
the subject is the first 30 characters of the body, or "No subject" when the
body is empty; when the case-preserved text lacks the phrase the placeholders
are produced; and the concrete example of the claim holds. -/
theorem C2_extractor_amended :
    (∀ p x y, pySplit p "send an email to" = [x, y] → extractSend p = extractSendSpec p)
    ∧ (∀ p, pyIn "send an email to" p = false →
        sendParams p = ("unknown@example.com", "Hello!", "Hello!"))
    ∧ (∀ b, b ≠ "" → sendSubject b = pyTake 30 b)
    ∧ sendSubject "" = "No subject"
    ∧ sendParams "send an email to a@b.com saying Hi there"
      = ("a@b.com", "Hi there", "Hi there") := by
  refine ⟨?_, ?_, ?_, by decide, by decide⟩
  · intro p x y h
    have hguard : ¬("send an email to".data = []) := by decide
    rw [pySplit, if_neg hguard] at h
    cases hc : pySplitCore "send an email to".data (p.data.length + 1) p.data with
    | nil => rw [hc] at h; simp at h
    | cons a tl =>
      cases tl with
      | nil =>
        rw [hc] at h; simp at h
      | cons bseg tl2 =>
        rw [hc] at h
        simp only [List.map_cons, List.cons.injEq] at h
        have htl2 : tl2 = [] := by
          rcases h with ⟨-, -, h3⟩
          cases tl2 with
          | nil => rfl
          | cons u us => simp at h3
        subst htl2
        have hpair : pySplitCore "send an email to".data (p.data.length + 1) p.data
            = [a, bseg] := hc
        have haft : afterSubL "send an email to".data p.data = some bseg :=
          pySplitCore_pair _ _ _ _ _ hpair
        rw [extractSend, extractSendSpec, pySplit, if_neg hguard, hc, afterFirst, haft]
        simp only [List.map_cons, Option.map_some]
        rcases h with ⟨-, hy, -⟩
        rfl
  · intro p h
    have hsplit := pySplit_of_not_pyIn h
    simp only [sendParams, extractSend, hsplit]
    decide
  · intro b hb
    have hbd : b.data ≠ [] := by
      intro hnil
      apply hb
      have hmk : b = String.mk b.data := rfl
      rw [hmk, hnil]
    have hne : (pyTake 30 b == "") = false := by
      cases hl : b.data with
      | nil => exact absurd hl hbd
      | cons c cs =>
        rw [pyTake, hl]
        rfl
    simp [sendSubject, hne]

/-- Witness for C2 amended at concrete inputs. -/
theorem C2_extractor_amended_witness :
    (extractSend "send an email to a@b.com saying Hi there"
      = extractSendSpec "send an email to a@b.com saying Hi there")
    ∧ sendParams "tell me a joke" = ("unknown@example.com", "Hello!", "Hello!")
    ∧ sendSubject "Hi" = pyTake 30 "Hi" :=
  ⟨C2_extractor_amended.1 "send an email to a@b.com saying Hi there"
      "" " a@b.com saying Hi there" (by decide),
   C2_extractor_amended.2.1 "tell me a joke" (by decide),
   C2_extractor_amended.2.2.1 "Hi" (by decide)⟩

/-- C10: intent classification checks the lower-cased text, but the extractor
splits the original, case-preserved prompt; hence whenever the lower-cased,
stripped utterance contains "send an email to" but the raw utterance does not
contain that exact phrase case-sensitively, the extractor falls into the bare
`except` and yields the placeholder recipient and body. -/
theorem C10_case_mismatch_fallback (prompt : String)
    (hlow : pyIn "send an email to" (pyStrip (pyLower prompt)) = true)
    (horig : pyIn "send an email to" prompt = false) :
    extractSend prompt = ("unknown@example.com", "Hello!") := by
  have hsplit := pySplit_of_not_pyIn horig
  simp only [extractSend, hsplit]
  decide

/-- Witness for C10: the capitalized utterance "Send an email to a@b.com"
lower-cases to contain the phrase but does not contain it case-sensitively. -/
theorem C10_case_mismatch_fallback_witness :
    extractSend "Send an email to a@b.com" = ("unknown@example.com", "Hello!") :=
  C10_case_mismatch_fallback "Send an email to a@b.com" (by decide) (by decide)

/-! ## Claim theorems: limits and timeouts -/

/-- C7: any limit query value that fails integer parsing falls back to the
default limit — 10 for the list handler, 5 for the summary handler — and the
handlers then behave exactly as with no limit parameter at all. -/
theorem C7_limit_defaults (s : String) (hfail : pyInt s = none) :
    listLimit (some s) = 10 ∧ summaryLimit (some s) = 5
    ∧ (∀ q listDelegate, list_view q (some s) listDelegate = list_view q none listDelegate)
    ∧ (∀ apiKey listDelegate completionDelegate,
        summary_view apiKey (some s) listDelegate completionDelegate
          = summary_view apiKey none listDelegate completionDelegate) := by
  refine ⟨?_, ?_, ?_, ?_⟩
  · simp [listLimit, hfail]
  · simp [summaryLimit, hfail]
  · intro q listDelegate
    simp [list_view, listLimit, hfail]
  · intro apiKey listDelegate completionDelegate
    simp [summary_view, summaryLimit, hfail]

/-- Witness for C7 at the unparseable limit value "five". -/
theorem C7_limit_defaults_witness :
    listLimit (some "five") = 10 ∧ summaryLimit (some "five") = 5 :=
  ⟨(C7_limit_defaults "five" (by decide)).1, (C7_limit_defaults "five" (by decide)).2.1⟩

/-- C8 counterexample: the summarize timeout (10 s, line 46) does not strictly
exceed the list timeout (10 s, line 38) nor the send timeout (15 s, line 55),
contradicting "the summarize timeout constant strictly exceeds the list and
send timeout constants". -/
theorem C8_timeout_counterexample :
    ¬(listTimeout < summarizeTimeout ∧ sendTimeout < summarizeTimeout) := by
  decide

/-- C8 amended: each chat-client backend call uses a fixed client-side timeout;
list and summarize share the 10-second timeout while send uses the strictly
larger 15-second timeout, and a timeout failure — like any other exception —
is converted into an `{error: string}` result by the same bare `except`. -/
theorem C8_timeouts_amended :
    summarizeTimeout = listTimeout ∧ listTimeout < sendTimeout
    ∧ (∀ get : Nat → Except String (List PyDict), ∀ e,
        get listTimeout = .error e → list_emails get = .err e)
    ∧ (∀ get : Nat → Except String PyDict, ∀ e,
        get summarizeTimeout = .error e → summarize_emails get = .err e)
    ∧ (∀ post : Nat → Except String PyDict, ∀ e,
        post sendTimeout = .error e → send_email post = .err e)
    ∧ (∀ get : Nat → Except String (List PyDict), ∀ v,
        get listTimeout = .ok v → list_emails get = .ok v)
    ∧ (∀ get : Nat → Except String PyDict, ∀ v,
        get summarizeTimeout = .ok v → summarize_emails get = .ok v)
    ∧ (∀ post : Nat → Except String PyDict, ∀ v,
        post sendTimeout = .ok v → send_email post = .ok v) := by
  refine ⟨rfl, by decide, ?_, ?_, ?_, ?_, ?_, ?_⟩ <;>
    intro f x h <;> simp [list_emails, summarize_emails, send_email, h]

/-- Witness for C8 amended with a concrete always-failing transport and a
concrete always-succeeding transport. -/
theorem C8_timeouts_amended_witness :
    list_emails (fun _ => .error "timeout") = .err "timeout"
    ∧ send_email (fun _ => .ok [("ok", .bool true)]) = .ok [("ok", .bool true)] :=
  ⟨C8_timeouts_amended.2.2.1 (fun _ => .error "timeout") "timeout" rfl,
   C8_timeouts_amended.2.2.2.2.2.2.2 (fun _ => .ok [("ok", .bool true)]) [("ok", .bool true)] rfl⟩

/-! ## Helper lemmas on dict lookup -/

lemma dget_append (l₁ l₂ : PyDict) (k : String) :
    dget (l₁ ++ l₂) k = ((dget l₁ k).or (dget l₂ k)) := by
  induction l₁ with
  | nil => simp [dget]
  | cons kv rest ih =>
    obtain ⟨k', v⟩ := kv
    by_cases h : (k' == k) = true
    · simp [dget, h]
    · simp only [List.cons_append, dget, h]
      rw [if_neg (by simp [h]), if_neg (by simp [h])] at *
      exact ih

lemma dget_filter_of_kept (l : PyDict) (k : String) (p : String × JVal → Bool)
    (hp : ∀ v, p (k, v) = true) :
    dget (l.filter p) k = dget l k := by
  induction l with
  | nil => simp [dget]
  | cons kv rest ih =>
    obtain ⟨k', v⟩ := kv
    by_cases hk : (k' == k) = true
    · have : k' = k := eq_of_beq hk
      subst this
      rw [List.filter_cons, if_pos (hp v)]
      simp [dget]
    · rw [List.filter_cons]
      by_cases hpv : p (k', v) = true
      · rw [if_pos hpv]
        simp only [dget, hk, if_neg (by simp [hk] : ¬((k' == k) = true))]
        rw [if_neg (by simp [hk])]
        exact ih
      · rw [if_neg (by simp [hpv])]
        simp only [dget]
        rw [if_neg (by simp [hk])]
        exact ih

/-! ## Claim theorems: send handler -/

/-- C3 counterexample: a valid request whose delegate result is a dict with a
`message_id` field but no `id` field still produces a response containing
`message_id` (the extra-field copy `result.update(...)` puts it there), so
"`message_id` present iff the delegate result contains an `id` field" fails. -/
theorem C3_send_counterexample :
    sendReqValid ⟨"a@b.com", "subject", "body"⟩ = true
    ∧ dget [("message_id", JVal.str "x")] "id" = none
    ∧ (send_view ⟨"a@b.com", "subject", "body"⟩
        (.ok (.dict [("message_id", JVal.str "x")]))).1
      = ⟨200, [("ok", .bool true), ("message_id", .str "x")]⟩ := by
  decide

/-- C3 amended: for every valid SendRequest the handler issues exactly one
delegate call; when the delegate returns normally the response is a 200 with
`ok = true`, and `message_id` is present iff the delegate result is a dict
containing an `id` field or itself containing a `message_id` field (extra
delegate fields are copied into the response); a non-dict delegate result
never yields `message_id`. -/
theorem C3_send_amended (r : SendReq) (hvalid : sendReqValid r = true) :
    (∀ delegate, (send_view r delegate).2 = 1)
    ∧ (∀ v, (send_view r (.ok v)).1.status = 200
        ∧ dget (send_view r (.ok v)).1.body "ok" = some (.bool true))
    ∧ (∀ items,
        (dget (send_view r (.ok (.dict items))).1.body "message_id").isSome
          = ((dget items "id").isSome || (dget items "message_id").isSome))
    ∧ (∀ w, dget (send_view r (.ok (.other w))).1.body "message_id" = none) := by
  refine ⟨?_, ?_, ?_, ?_⟩
  · intro delegate
    cases delegate with
    | error e => simp [send_view, hvalid]
    | ok v => cases v <;> simp [send_view, hvalid]
  · intro v
    cases v with
    | dict items =>
      cases hid : dget items "id" with
      | some u =>
        simp only [send_view, hvalid, if_pos, hid]
        refine ⟨by trivial, ?_⟩
        rw [dget_append]
        simp [dget]
      | none =>
        simp only [send_view, hvalid, if_pos, hid]
        refine ⟨by trivial, ?_⟩
        rw [dget_append]
        simp [dget]
    | other w => simp [send_view, hvalid, dget]
  · intro items
    cases hid : dget items "id" with
    | some u =>
      simp only [send_view, hvalid, if_pos, hid]
      rw [dget_append]
      simp [dget]
    | none =>
      simp only [send_view, hvalid, if_pos, hid]
      rw [dget_append]
      rw [dget_filter_of_kept _ _ _ (by intro v; simp [dget])]
      simp [dget, hid]
  · intro w
    simp [send_view, hvalid, dget]

/-- Witness for C3 amended at a concrete valid request and delegate result. -/
theorem C3_send_amended_witness :
    (send_view ⟨"a@b.com", "greetings", "hello"⟩ (.ok (.dict [("id", .str "m1")]))).2 = 1
    ∧ (dget (send_view ⟨"a@b.com", "greetings", "hello"⟩
          (.ok (.dict [("id", .str "m1")]))).1.body "message_id").isSome
        = ((dget [("id", JVal.str "m1")] "id").isSome
            || (dget [("id", JVal.str "m1")] "message_id").isSome) :=
  ⟨(C3_send_amended ⟨"a@b.com", "greetings", "hello"⟩ (by decide)).1 _,
   (C3_send_amended ⟨"a@b.com", "greetings", "hello"⟩ (by decide)).2.2.1
      [("id", JVal.str "m1")]⟩

/-! ## Claim theorems: summary handler -/

/-- C4: with no OPENAI_API_KEY configured, the summary handler never calls the
completion API, and whenever the mailbox fetch returns messages it responds 200
with the raw snippets, a null summary and the fixed non-empty warning. -/
theorem C4_summary_no_key (apiKey limitParam : Option String)
    (listDelegate : Int → Except String (List PyDict))
    (completionDelegate : String → Except String ChatResp)
    (hkey : keyConfigured apiKey = false) :
    (summary_view apiKey limitParam listDelegate completionDelegate).2 = 0
    ∧ (∀ msgs, listDelegate (summaryLimit limitParam) = .ok msgs →
        (summary_view apiKey limitParam listDelegate completionDelegate).1
          = ⟨200, .ok (msgs.map snippetOf) none
              (some "OPENAI_API_KEY not set in settings.")⟩)
    ∧ "OPENAI_API_KEY not set in settings." ≠ "" := by
  refine ⟨?_, ?_, by decide⟩
  · cases hl : listDelegate (summaryLimit limitParam) with
    | error e => simp [summary_view, hl]
    | ok msgs => simp [summary_view, hl, hkey]
  · intro msgs hl
    simp [summary_view, hl, hkey]

/-- Witness for C4 with no key configured and a one-message mailbox. -/
theorem C4_summary_no_key_witness :
    (summary_view none none (fun _ => .ok [[("body", JVal.str "ping")]])
      (fun _ => .error "unreachable")).2 = 0
    ∧ (summary_view none none (fun _ => .ok [[("body", JVal.str "ping")]])
        (fun _ => .error "unreachable")).1
      = ⟨200, .ok [JVal.str "ping"] none
          (some "OPENAI_API_KEY not set in settings.")⟩ := by
  have h := C4_summary_no_key none none (fun _ => .ok [[("body", JVal.str "ping")]])
    (fun _ => .error "unreachable") rfl
  exact ⟨h.1, (h.2.1 [[("body", JVal.str "ping")]] rfl).trans (by decide)⟩


/-! ## Claim theorems: list normalization -/

lemma simplifyMsg_eq (m : PyDict) (d : PyDict) (h : simplifyMsg m = .ok d) :
    ∃ bodyv, pySliceStr (pyOrV (dget m "body") (.str "")) 2000 = .ok bodyv ∧
      d = [("id", toJ (dget m "id")),
           ("threadId", toJ (dget m "threadId")),
           ("from", toJ (pyOrO (dget m "from") (pyOrO (dget m "sender") (dget m "emailFrom")))),
           ("to", toJ (dget m "to")),
           ("subject", toJ (pyOrO (dget m "subject") (pyOrO (dget m "title") (dget m "header_subject")))),
           ("snippet", toJ (dget m "snippet")),
           ("time", toJ (pyOrO (dget m "time") (pyOrO (dget m "date") (dget m "internalDate")))),
           ("body", bodyv)] := by
  cases hs : pySliceStr (pyOrV (dget m "body") (.str "")) 2000 with
  | error e =>
    rw [simplifyMsg, hs] at h
    exact absurd h (by simp)
  | ok bodyv =>
    rw [simplifyMsg, hs] at h
    exact ⟨bodyv, rfl, (Except.ok.inj h).symm⟩

/-- C5 counterexample: the fallback chains use Python `or`, which skips a
present-but-empty string; on a message whose "from" field is the empty string
and whose "sender" is "x", the code outputs "x" while "first-non-null
fallback" dictates the empty string (present and non-null). -/
theorem C5_normalize_counterexample :
    simplifyMsg [("from", JVal.str ""), ("sender", JVal.str "x")]
      = .ok [("id", .null), ("threadId", .null), ("from", .str "x"), ("to", .null),
             ("subject", .null), ("snippet", .null), ("time", .null), ("body", .str "")]
    ∧ firstNonNull
        [dget [("from", JVal.str ""), ("sender", JVal.str "x")] "from",
         dget [("from", JVal.str ""), ("sender", JVal.str "x")] "sender",
         dget [("from", JVal.str ""), ("sender", JVal.str "x")] "emailFrom"]
      = some (.str "")
    ∧ JVal.str "x" ≠ JVal.str "" := by
  decide

/-- C5 amended: list normalization produces the fixed eight-field shape with
first-TRUTHY fallback (a present null, empty-string or otherwise falsy value
falls through to the next candidate) across "from"/"sender"/"emailFrom" and
"subject"/"title"/"header_subject", and truncates a string body to its first
2000 characters (an absent body becomes the empty string); in particular a
message missing "from" (or carrying a falsy "from") with a truthy "sender"
yields the value of "sender" in the "from" output field. -/
theorem C5_normalize_amended :
    (∀ m d, simplifyMsg m = .ok d →
        d.map Prod.fst = ["id", "threadId", "from", "to", "subject", "snippet", "time", "body"])
    ∧ (∀ m v d, dget m "from" = some v → jtruthy v = true →
        simplifyMsg m = .ok d → dget d "from" = some v)
    ∧ (∀ m v d, optTruthy (dget m "from") = false →
        dget m "sender" = some v → jtruthy v = true →
        simplifyMsg m = .ok d → dget d "from" = some v)
    ∧ (∀ m s d, dget m "body" = some (.str s) →
        simplifyMsg m = .ok d → dget d "body" = some (.str (pyTake 2000 s)))
    ∧ (∀ m d, dget m "body" = none →
        simplifyMsg m = .ok d → dget d "body" = some (.str "")) := by
  refine ⟨?_, ?_, ?_, ?_, ?_⟩
  · intro m d h
    obtain ⟨bodyv, hs, rfl⟩ := simplifyMsg_eq m d h
    rfl
  · intro m v d hfrom htr h
    obtain ⟨bodyv, hs, rfl⟩ := simplifyMsg_eq m d h
    simp [dget, hfrom, pyOrO, htr, toJ]
  · intro m v d hfalsy hsender htr h
    obtain ⟨bodyv, hs, rfl⟩ := simplifyMsg_eq m d h
    cases hf : dget m "from" with
    | none => simp [dget, hf, hsender, pyOrO, htr, toJ]
    | some u =>
      rw [hf] at hfalsy
      simp only [optTruthy] at hfalsy
      simp [dget, hf, hsender, pyOrO, hfalsy, htr, toJ]
  · intro m s d hbody h
    obtain ⟨bodyv, hs, rfl⟩ := simplifyMsg_eq m d h
    rw [hbody] at hs
    by_cases hcase : s = ""
    · subst hcase
      have hb : bodyv = .str (pyTake 2000 "") := (Except.ok.inj hs).symm
      simp [dget, hb]
    · have htr : jtruthy (JVal.str s) = true := by
        simp [jtruthy, hcase]
      rw [pyOrV] at hs
      rw [htr] at hs
      simp only [if_true, pySliceStr] at hs
      have hb : bodyv = .str (pyTake 2000 s) := (Except.ok.inj hs).symm
      simp [dget, hb]
  · intro m d hbody h
    obtain ⟨bodyv, hs, rfl⟩ := simplifyMsg_eq m d h
    rw [hbody] at hs
    have hb : bodyv = .str (pyTake 2000 "") := (Except.ok.inj hs).symm
    have hempty : pyTake 2000 "" = "" := rfl
    simp [dget, hb, hempty]

/-- Witness for C5 amended: a message with no "from" and sender "x", body "hello". -/
theorem C5_normalize_amended_witness :
    dget [("sender", JVal.str "x"), ("body", JVal.str "hello")] "from" = none
    ∧ (∀ d, simplifyMsg [("sender", JVal.str "x"), ("body", JVal.str "hello")] = .ok d →
        dget d "from" = some (.str "x")) := by
  refine ⟨by decide, ?_⟩
  intro d h
  exact C5_normalize_amended.2.2.1 [("sender", JVal.str "x"), ("body", JVal.str "hello")]
    (.str "x") d (by decide) (by decide) (by decide) h

/-! ## Claim theorems: spam handler -/

/-- C6: any spam request whose action lies outside
`{mark_spam, unspam, unmark_spam}` (a missing action included) gets a 400
client error and issues no `modify_message_labels` call; with a truthy
message id, `mark_spam` issues exactly the call adding the fixed label "SPAM"
and `unspam`/`unmark_spam` exactly the call removing it. -/
theorem C6_spam_actions :
    (∀ messageId action delegate, unknownSpamAction action = true →
        (manage_spam messageId action delegate).1.status = 400
        ∧ (manage_spam messageId action delegate).2 = [])
    ∧ (∀ mid delegate, mid ≠ "" →
        (manage_spam (some mid) (some "mark_spam") delegate).2
          = [⟨mid, ["SPAM"], []⟩])
    ∧ (∀ mid a delegate, mid ≠ "" → (a = "unspam" ∨ a = "unmark_spam") →
        (manage_spam (some mid) (some a) delegate).2
          = [⟨mid, [], ["SPAM"]⟩]) := by
  refine ⟨?_, ?_, ?_⟩
  · intro messageId action delegate hunk
    cases action with
    | none =>
      cases messageId <;> simp [manage_spam]
    | some a =>
      simp only [unknownSpamAction, Bool.not_eq_eq_eq_not, Bool.not_true,
        Bool.or_eq_false_iff] at hunk
      obtain ⟨⟨h1, h2⟩, h3⟩ := hunk
      cases messageId with
      | none => simp [manage_spam]
      | some mid =>
        by_cases hmid : (mid == "" || a == "") = true
        · simp [manage_spam, hmid]
        · simp [manage_spam, hmid, h1, h2, h3]
  · intro mid delegate hmid
    have h1 : (mid == "") = false := beq_false_of_ne hmid
    cases delegate <;> simp [manage_spam, h1]
  · intro mid a delegate hmid ha
    have h1 : (mid == "") = false := beq_false_of_ne hmid
    rcases ha with rfl | rfl <;> cases delegate <;> simp [manage_spam, h1]

/-- Witness for C6 at concrete requests. -/
theorem C6_spam_actions_witness :
    (manage_spam (some "m1") (some "flag_as_spam") (.ok .null)).1.status = 400
    ∧ (manage_spam (some "m1") (some "flag_as_spam") (.ok .null)).2 = []
    ∧ (manage_spam (some "m1") (some "mark_spam") (.ok .null)).2 = [⟨"m1", ["SPAM"], []⟩]
    ∧ (manage_spam (some "m1") (some "unmark_spam") (.ok .null)).2 = [⟨"m1", [], ["SPAM"]⟩] :=
  ⟨(C6_spam_actions.1 (some "m1") (some "flag_as_spam") (.ok .null) (by decide)).1,
   (C6_spam_actions.1 (some "m1") (some "flag_as_spam") (.ok .null) (by decide)).2,
   C6_spam_actions.2.1 "m1" (.ok .null) (by decide),
   C6_spam_actions.2.2 "m1" "unmark_spam" (.ok .null) (by decide) (Or.inr rfl)⟩

/-! ## Claim theorems: chat-side list formatter -/

lemma formatEntriesFrom_length (ft : Option JVal → String) :
    ∀ (start : Nat) (data : List PyDict),
      (formatEntriesFrom ft start data).length = data.length := by
  intro start data
  induction data generalizing start with
  | nil => rfl
  | cons e rest ih => simp [formatEntriesFrom, ih]

lemma formatEntriesFrom_get? (ft : Option JVal → String) :
    ∀ (data : List PyDict) (start j : Nat),
      (formatEntriesFrom ft start data).get? j
        = (data.get? j).map (fun e => formatEntry ft (start + j) e) := by
  intro data
  induction data with
  | nil => intro start j; simp [formatEntriesFrom]
  | cons e rest ih =>
    intro start j
    cases j with
    | zero => simp [formatEntriesFrom]
    | succ n =>
      simp only [formatEntriesFrom, List.get?_cons_succ, ih (start + 1) n]
      have : start + 1 + n = start + (n + 1) := by omega
      rw [this]

/-- C9: the chat-side list formatter turns a successful list response of N
items into markdown with exactly N numbered entries — the entry list has
length N, its j-th element starts with the entry number j+1 (numbering runs
1..N), and the reply is the fixed header followed by those entries. -/
theorem C9_list_formatter (ft : Option JVal → String) (data : List PyDict) :
    (formatEntriesFrom ft 1 data).length = data.length
    ∧ (∀ j, (formatEntriesFrom ft 1 data).get? j
        = (data.get? j).map (fun e =>
            "**" ++ toString (j + 1) ++ ". " ++ formatEntryTail ft e))
    ∧ listReply ft data
        = "📩 **Latest Emails:**\n\n" ++ String.join (formatEntriesFrom ft 1 data) := by
  refine ⟨formatEntriesFrom_length ft 1 data, ?_, rfl⟩
  intro j
  rw [formatEntriesFrom_get? ft data 1 j]
  have : 1 + j = j + 1 := Nat.add_comm 1 j
  rw [this]
  rfl
